import Mathlib

/-!
# Verification of the scenario execution engine of `aiops-web-inject/app.py`

Shallow embedding of the per-scenario background request generator:
`send_single_request` (lines 65-76), `send_continuous_requests` (lines 78-117),
`start_requests` (lines 119-145), `stop_requests` (lines 147-150) and
`recover_all` (lines 296-314).

The engine's interaction with the outside world is modeled by an explicit
environment: the result of each outbound HTTP call (success or a raised
transport exception), the configuration returned by `load_config()` at each
cycle, and the value of `time.time()`.  Python's "a function may raise" is
embedded as an `Except String` return type; a `try/except` block is embedded
by the corresponding `match`.  The unbounded `while` loop of
`send_continuous_requests` is embedded with explicit fuel (number of loop
iterations modeled); exhausting the fuel means the loop is still `Running`,
exiting within the fuel means it reached `Stopped`.

A second, timed view of the same loop (`exitTime`, `issuedTimes`,
`start_requests_second`) models the wall-clock behavior of lines 90-117:
each cycle does its in-flight work (duration `w`, bounded in practice by the
5-second request timeout of lines 69-74) and then `time.sleep(2)` (line 117),
which always lasts the full 2 seconds - a plain sleep, not interruptible by
the stop event.  The stop event set at absolute time `s` is observed only at
the top-of-loop check (line 90).
-/

/-- HTTP method of an outbound call. -/
inductive Method where
  | GET
  | POST
deriving DecidableEq

/-- JSON body of a POST, line 73: a name label and a content string carrying
the `time.time()` timestamp. -/
structure Body where
  name : String
  content : String
deriving DecidableEq

/-- One outbound HTTP call as performed by `requests.get`/`requests.post`:
method, url, optional JSON body, timeout in seconds. -/
structure HttpCall where
  method : Method
  url : String
  body : Option Body
  timeout : Nat
deriving DecidableEq

/-- The configuration dict returned by `load_config()` (lines 47-54). -/
structure Config where
  error_injection_api : String
  sample_api : String
deriving DecidableEq

/-- The `request_type` values appearing in the scenario table. -/
inductive RequestType where
  | get_items
  | get_by_id
  | post_items
deriving DecidableEq

/-- One entry of the `SCENARIOS` dict (lines 14-45).  The `request_type`
field is optional because the Python dict could in principle lack the key;
every actual entry carries it. -/
structure Scenario where
  name : String
  description : String
  alarm : String
  request_type : Option RequestType
deriving DecidableEq

/-- The `SCENARIOS` table, lines 14-45, as an association list in source
order. -/
def SCENARIOS : List (String × Scenario) :=
  [("s3_access",
     ⟨"场景1: S3访问拒绝", "通过Bucket Policy阻止S3写入，模拟权限配置错误",
      "PostItems-5XX", some RequestType.post_items⟩),
   ("latency",
     ⟨"场景2: API延迟", "注入3000ms延迟到GET /items接口，模拟网络或后端响应慢",
      "GetAllItems-Latency", some RequestType.get_items⟩),
   ("wrong_ids",
     ⟨"场景3: 资源不存在(404)", "返回404错误，模拟请求不存在的资源ID",
      "GetItemById-4XX", some RequestType.get_by_id⟩),
   ("lambda_throttle",
     ⟨"场景4: Lambda限流", "限制Lambda并发为1，模拟高并发下的429限流错误",
      "PostItems-4XX", some RequestType.post_items⟩),
   ("dynamodb_throttle",
     ⟨"场景5: DynamoDB限流", "模拟DynamoDB吞吐量超限，返回500错误",
      "PostItems-5XX", some RequestType.post_items⟩)]

/-- Lines 98-99: `SCENARIOS.get(scenario_type, {}).get('request_type',
'post_items')` - an unknown key or an entry without a `request_type` field
falls back to `post_items`. -/
def resolveRequestType (table : List (String × Scenario)) (key : String) :
    RequestType :=
  match table.lookup key with
  | none => RequestType.post_items
  | some sc => sc.request_type.getD RequestType.post_items

/-- The single HTTP call attempted by lines 68-74 for a given request type:
`get_items` → GET sample_api/items; `get_by_id` → GET
sample_api/items/test-id-1; `post_items` → POST sample_api/items with the
name/content body of line 73.  All carry `timeout=5`. -/
def buildCall (config : Config) (rt : RequestType) (now : Nat) : HttpCall :=
  match rt with
  | RequestType.get_items =>
      ⟨Method.GET, config.sample_api ++ "/items", none, 5⟩
  | RequestType.get_by_id =>
      ⟨Method.GET, config.sample_api ++ "/items/test-id-1", none, 5⟩
  | RequestType.post_items =>
      ⟨Method.POST, config.sample_api ++ "/items",
       some ⟨"Error Trigger", "Request at " ++ toString now⟩, 5⟩

/-- Lines 65-76, `send_single_request`.  `outcome` is the environment's
verdict on the outbound call: `Except.ok ()` if it returned, `Except.error e`
if it raised a transport exception.  The body (lines 68-74) performs exactly
one call; the `except Exception` clause (lines 75-76) converts any raised
exception into a log line, so the function's own result is `.ok` in every
case.  Returns the calls attempted and the log lines printed. -/
def send_single_request (config : Config) (rt : RequestType) (now : Nat)
    (outcome : Except String Unit) :
    Except String (List HttpCall × List String) :=
  match outcome with
  | Except.ok _ => Except.ok ([buildCall config rt now], [])
  | Except.error e =>
      Except.ok ([buildCall config rt now], ["Request failed: " ++ e])

/-- The calls attempted by a sender invocation, as seen by its caller. -/
def sentCalls (r : Except String (List HttpCall × List String)) :
    List HttpCall :=
  match r with
  | Except.ok p => p.1
  | Except.error _ => []

/-- The environment of one runner: `configAt i` is what `load_config()`
(line 97) returns during cycle `i`; `timeAt i` is `time.time()` during cycle
`i`; `outcomeAt i j` is the verdict on the `j`-th outbound call of cycle `i`
(the burst cycle makes 5 calls, an ordinary cycle 1). -/
structure Env where
  configAt : Nat → Config
  timeAt : Nat → Nat
  outcomeAt : Nat → Nat → Except String Unit

/-- What one loop cycle (lines 96-116) produced: the calls dispatched, the
log lines printed, and the amount added to `request_count`. -/
structure CycleRec where
  calls : List HttpCall
  logs : List String
  inc : Nat
deriving DecidableEq

/-- Result of running `send_single_request` inside its own thread (lines
106-107): an exception escaping a thread is confined to that thread and
never reaches the spawning loop.  (Unreachable in fact, since
`send_single_request` always returns `.ok`.) -/
def threadResult (r : Except String (List HttpCall × List String)) :
    List HttpCall × List String :=
  match r with
  | Except.ok p => p
  | Except.error _ => ([], [])

/-- Lines 96-114, the body of the `try` inside the loop: read the config
fresh (line 97), resolve the request type (lines 98-99), then either the
5-thread burst for `lambda_throttle` with `request_count += 5` (lines
101-111) or a single send with `request_count += 1` (lines 112-114).  An
exception raised here would propagate to the loop's own `except` (line
115). -/
def cycleBody (env : Env) (key : String) (i : Nat) :
    Except String CycleRec :=
  let config := env.configAt i
  let rt := resolveRequestType SCENARIOS key
  if key = "lambda_throttle" then
    let units := (List.range 5).map fun j =>
      threadResult (send_single_request config rt (env.timeAt i)
        (env.outcomeAt i j))
    Except.ok ⟨(units.map Prod.fst).flatten, (units.map Prod.snd).flatten, 5⟩
  else
    match send_single_request config rt (env.timeAt i)
        (env.outcomeAt i 0) with
    | Except.ok (calls, logs) => Except.ok ⟨calls, logs, 1⟩
    | Except.error e => Except.error e

/-- Lines 96-116: the cycle body wrapped in the loop's `try/except`
(lines 115-116), which logs and leaves `request_count` unchanged. -/
def runCycle (env : Env) (key : String) (i : Nat) : CycleRec :=
  match cycleBody env key i with
  | Except.ok c => c
  | Except.error e => ⟨[], ["Request failed (" ++ key ++ "): " ++ e], 0⟩

/-- Line 92, `if max_requests and request_count >= max_requests`: Python
truthiness makes the limit check a no-op when `max_requests` is `None` OR
`0`. -/
def pyMaxReached (maxr : Option Nat) (cnt : Nat) : Bool :=
  match maxr with
  | none => false
  | some m => decide (m ≠ 0 ∧ m ≤ cnt)

/-- Outcome of running the loop for a given amount of fuel: the cycles
executed, the final `request_count`, and whether the loop exited (reached
`Stopped`) within the fuel - `stopped = false` means it is still
running. -/
structure LoopOut where
  cycles : List CycleRec
  count : Nat
  stopped : Bool
deriving DecidableEq

/-- Lines 89-117, the `while not stop_event.is_set()` loop.  `stopAt i` is
the value of `stop_event.is_set()` at the check opening cycle `i` (for a
real `threading.Event` it is monotone: once set, always set).  `i` is the
cycle index, `cnt` the current `request_count`.  The `time.sleep(2)` of line
117 only affects wall-clock time, modeled separately by `exitTime`. -/
def send_continuous_loop (env : Env) (stopAt : Nat → Bool) (key : String)
    (maxr : Option Nat) : Nat → Nat → Nat → LoopOut
  | 0, _, cnt => ⟨[], cnt, false⟩
  | fuel + 1, i, cnt =>
    if stopAt i then ⟨[], cnt, true⟩
    else if pyMaxReached maxr cnt then ⟨[], cnt, true⟩
    else
      let c := runCycle env key i
      let r := send_continuous_loop env stopAt key maxr fuel (i + 1)
        (cnt + c.inc)
      ⟨c :: r.cycles, r.count, r.stopped⟩

/-- The `stop_events` registry value for one key: the stop event's
`is_set()` trace as a function of the cycle index. -/
abbrev EventSig := Nat → Bool

/-- Lines 78-117, `send_continuous_requests` including the guard of lines
85-87: `stop_events.get(scenario_type)` yields `None` for an unregistered
key and the function returns at once.  The function only reads the registry,
so it is returned unchanged alongside the loop outcome. -/
def send_continuous_requests (stop_events : List (String × EventSig))
    (env : Env) (key : String) (maxr : Option Nat) (fuel : Nat) :
    LoopOut × List (String × EventSig) :=
  match stop_events.lookup key with
  | none => (⟨[], 0, true⟩, stop_events)
  | some sig => (send_continuous_loop env sig key maxr fuel 0 0, stop_events)

/-- Lines 147-150, `stop_requests`: if the key is registered, set its stop
event (after `set()`, `is_set()` returns true at every later query);
unknown keys are a no-op. -/
def stop_requests (reg : List (String × EventSig)) (key : String) :
    List (String × EventSig) :=
  match reg.lookup key with
  | some _ => reg.map fun p => if p.1 = key then (p.1, fun _ => true) else p
  | none => reg

/-- Line 310 and line 312: outcome string for one scenario in
`recover_all`.  `resp` is the environment's verdict on the
`requests.post` to the error-injection API: a status code, or a raised
exception caught by the per-key `except` (lines 311-312). -/
def recover_one (resp : Except String Nat) : String :=
  match resp with
  | Except.ok code => if code = 200 then "recovered" else "failed"
  | Except.error e => "error: " ++ e

/-- The per-key iteration of `recover_all` (lines 302-312): for each
scenario key in table order, stop its requests and record the recovery
outcome. -/
def recover_all_go (resp : String → Except String Nat) :
    List (String × Scenario) →
    List (String × EventSig) × List (String × String) →
    List (String × EventSig) × List (String × String)
  | [], acc => acc
  | p :: rest, (reg, res) =>
      recover_all_go resp rest
        (stop_requests reg p.1, res ++ [(p.1, recover_one (resp p.1))])

/-- Lines 296-314, `recover_all`: iterate over every known scenario key,
stop its runner and call the external recovery API, collecting a per-key
outcome.  The registry may be in any state, including empty. -/
def recover_all (reg : List (String × EventSig))
    (resp : String → Except String Nat) :
    List (String × EventSig) × List (String × String) :=
  recover_all_go resp SCENARIOS (reg, [])

/-- The canonical URL path attempted for each request type (derived from
lines 68-74). -/
def apiPath (rt : RequestType) : String :=
  match rt with
  | RequestType.get_items => "/items"
  | RequestType.get_by_id => "/items/test-id-1"
  | RequestType.post_items => "/items"

/-- Timed view of the loop, lines 90-117.  `s` is the absolute time at which
the stop event is set; the list gives each remaining cycle's in-flight work
duration (bounded in practice by the 5-second request timeout); `t` is the
current top-of-loop time.  A cycle at time `t` with the event still unset
(`t < s`) works for `w`, then `time.sleep(2)` - a plain sleep lasting the
full 2 seconds whether or not the event gets set meanwhile - so the next
check is at `t + w + 2`.  Returns the absolute time at which the loop
observes the event and exits, or `none` if that lies beyond the modeled
horizon. -/
def exitTime (s : Nat) : List Nat → Nat → Option Nat
  | [], t => if s ≤ t then some t else none
  | w :: ws, t =>
      if s ≤ t then some t else exitTime s ws (t + w + 2)

/-- Timed view of the requests issued: the cycle at time `t` issues its
request (batch) at `t` exactly when the top-of-loop check at `t` still sees
the event unset. -/
def issuedTimes (s : Nat) : List Nat → Nat → List Nat
  | [], _ => []
  | w :: ws, t =>
      if s ≤ t then [] else t :: issuedTimes s ws (t + w + 2)

/-- Lines 129-145 of `start_requests`, called a second time at absolute time
`T` over a runner (work schedule `ws`, started at time 0) that is still
registered: set the old runner's stop event (line 131), `join(timeout=3)`
(line 133) - which returns at the earlier of the old runner's exit and
`T + 3` - then install and start the new runner.  Yields
`(new runner start time, old runner exit time)` when the old runner's exit
lies within the modeled horizon. -/
def start_requests_second (ws : List Nat) (T : Nat) : Option (Nat × Nat) :=
  (exitTime T ws 0).map fun E => (min (T + 3) E, E)

/-- Concrete configuration used to instantiate universally quantified
theorems. -/
def cfg0 : Config := ⟨"http://err.example", "http://sample.example"⟩

/-- Concrete environment used to instantiate universally quantified
theorems. -/
def env0 : Env := ⟨fun _ => cfg0, fun _ => 0, fun _ _ => Except.ok ()⟩

/-! ## Helper lemmas -/

theorem send_single_request_calls (config : Config) (rt : RequestType)
    (now : Nat) (o : Except String Unit) :
    (threadResult (send_single_request config rt now o)).1 =
      [buildCall config rt now] := by
  cases o <;> rfl

theorem runCycle_calls (env : Env) (key : String) (i : Nat) :
    (runCycle env key i).calls =
      List.replicate (if key = "lambda_throttle" then 5 else 1)
        (buildCall (env.configAt i) (resolveRequestType SCENARIOS key)
          (env.timeAt i)) := by
  by_cases h : key = "lambda_throttle"
  · subst h
    simp only [runCycle, cycleBody, if_pos rfl]
    have hrange : List.range 5 = [0, 1, 2, 3, 4] := rfl
    simp only [hrange, List.map_cons, List.map_nil,
      send_single_request_calls]
    rfl
  · simp only [runCycle, cycleBody, if_neg h]
    cases ho : env.outcomeAt i 0 <;>
      simp [send_single_request, ho, List.replicate]

theorem runCycle_inc (env : Env) (key : String) (i : Nat) :
    (runCycle env key i).inc = if key = "lambda_throttle" then 5 else 1 := by
  by_cases h : key = "lambda_throttle"
  · subst h
    simp [runCycle, cycleBody]
  · simp only [runCycle, cycleBody, if_neg h]
    cases ho : env.outcomeAt i 0 <;> simp [send_single_request, ho, h]

theorem pyMaxReached_false_lt {m cnt : Nat} (hm : m ≠ 0)
    (h : pyMaxReached (some m) cnt = false) : cnt < m := by
  simp [pyMaxReached, hm] at h
  omega

theorem loop_count_le (env : Env) (stopAt : Nat → Bool) (key : String)
    (m B : Nat) (hm : m ≠ 0)
    (hB : B = if key = "lambda_throttle" then 5 else 1) :
    ∀ fuel i cnt, cnt ≤ m + B - 1 →
      (send_continuous_loop env stopAt key (some m) fuel i cnt).count
        ≤ m + B - 1 := by
  intro fuel
  induction fuel with
  | zero => intro i cnt h; simpa [send_continuous_loop] using h
  | succ f ih =>
    intro i cnt h
    simp only [send_continuous_loop]
    by_cases hs : stopAt i = true
    · simpa [hs] using h
    · by_cases hmax : pyMaxReached (some m) cnt = true
      · simpa [hs, hmax] using h
      · have hlt : cnt < m :=
          pyMaxReached_false_lt hm (Bool.not_eq_true _ ▸ hmax)
        have hinc : (runCycle env key i).inc = B := by
          rw [runCycle_inc, hB]
        simp only [hs, hmax, if_false, Bool.false_eq_true]
        refine ih (i + 1) (cnt + (runCycle env key i).inc) ?_
        rw [hinc]
        omega

theorem loop_stops (env : Env) (stopAt : Nat → Bool) (key : String)
    (m : Nat) (hm : m ≠ 0) :
    ∀ fuel i cnt, m - cnt < fuel →
      (send_continuous_loop env stopAt key (some m) fuel i cnt).stopped
        = true := by
  intro fuel
  induction fuel with
  | zero => intro i cnt h; omega
  | succ f ih =>
    intro i cnt h
    simp only [send_continuous_loop]
    by_cases hs : stopAt i = true
    · simp [hs]
    · by_cases hmax : pyMaxReached (some m) cnt = true
      · simp [hs, hmax]
      · have hlt : cnt < m :=
          pyMaxReached_false_lt hm (Bool.not_eq_true _ ▸ hmax)
        have hinc : 1 ≤ (runCycle env key i).inc := by
          rw [runCycle_inc]
          by_cases hk : key = "lambda_throttle" <;> simp [hk]
        simp only [hs, hmax, if_false, Bool.false_eq_true]
        refine ih (i + 1) (cnt + (runCycle env key i).inc) ?_
        omega

theorem loop_zero_eq (env : Env) (stopAt : Nat → Bool) (key : String) :
    ∀ fuel i cnt,
      send_continuous_loop env stopAt key (some 0) fuel i cnt =
        send_continuous_loop env stopAt key none fuel i cnt := by
  intro fuel
  induction fuel with
  | zero => intro i cnt; rfl
  | succ f ih =>
    intro i cnt
    simp only [send_continuous_loop, ih, pyMaxReached, ne_eq,
      not_true_eq_false, false_and, decide_False]

theorem loop_cycles_getq (env : Env) (stopAt : Nat → Bool) (key : String)
    (maxr : Option Nat) :
    ∀ fuel i cnt k c,
      (send_continuous_loop env stopAt key maxr fuel i cnt).cycles.get? k
        = some c →
      c = runCycle env key (i + k) := by
  intro fuel
  induction fuel with
  | zero => intro i cnt k c h; simp [send_continuous_loop] at h
  | succ f ih =>
    intro i cnt k c h
    by_cases hs : stopAt i = true
    · simp [send_continuous_loop, hs] at h
    · by_cases hmax : pyMaxReached maxr cnt = true
      · simp [send_continuous_loop, hs, hmax] at h
      · simp only [send_continuous_loop, hs, hmax, if_false,
          Bool.false_eq_true] at h
        cases k with
        | zero =>
          simp only [List.get?] at h
          injection h with h
          simp [h.symm]
        | succ k' =>
          simp only [List.get?] at h
          have := ih (i + 1) (cnt + (runCycle env key i).inc) k' c h
          rw [this]
          congr 1
          omega

theorem loop_cycles_mem (env : Env) (stopAt : Nat → Bool) (key : String)
    (maxr : Option Nat) :
    ∀ fuel i cnt c,
      c ∈ (send_continuous_loop env stopAt key maxr fuel i cnt).cycles →
      ∃ j, c = runCycle env key j := by
  intro fuel
  induction fuel with
  | zero => intro i cnt c h; simp [send_continuous_loop] at h
  | succ f ih =>
    intro i cnt c h
    by_cases hs : stopAt i = true
    · simp [send_continuous_loop, hs] at h
    · by_cases hmax : pyMaxReached maxr cnt = true
      · simp [send_continuous_loop, hs, hmax] at h
      · simp only [send_continuous_loop, hs, hmax, if_false,
          Bool.false_eq_true, List.mem_cons] at h
        rcases h with h | h
        · exact ⟨i, h⟩
        · exact ih (i + 1) (cnt + (runCycle env key i).inc) c h

theorem loop_length_full (env : Env) (key : String) :
    ∀ fuel i cnt,
      (send_continuous_loop env (fun _ => false) key none fuel i
          cnt).cycles.length = fuel := by
  intro fuel
  induction fuel with
  | zero => intro i cnt; rfl
  | succ f ih =>
    intro i cnt
    simp only [send_continuous_loop, pyMaxReached, if_false,
      Bool.false_eq_true, List.length_cons, ih]

theorem buildCall_url (config : Config) (rt : RequestType) (now : Nat) :
    (buildCall config rt now).url = config.sample_api ++ apiPath rt := by
  cases rt <;> rfl

theorem recover_all_go_snd (resp : String → Except String Nat) :
    ∀ (l : List (String × Scenario)) (reg : List (String × EventSig))
      (res : List (String × String)),
      (recover_all_go resp l (reg, res)).2 =
        res ++ l.map fun p => (p.1, recover_one (resp p.1)) := by
  intro l
  induction l with
  | nil => intro reg res; simp [recover_all_go]
  | cons p rest ih =>
    intro reg res
    simp [recover_all_go, ih]

/-! ## Claim theorems -/

/-- C4: every cycle of the concurrency-burst (`lambda_throttle`) runner
dispatches exactly 5 request units and adds exactly 5 to the runner's
request count, for every environment - in particular no matter how many of
the 5 individual requests fail (the count of line 111 is taken after the
joins, unconditionally). -/
theorem c4_burst_always_five (env : Env) (stopAt : Nat → Bool)
    (maxr : Option Nat) (fuel i cnt : Nat) (c : CycleRec)
    (hc : c ∈ (send_continuous_loop env stopAt "lambda_throttle" maxr fuel
        i cnt).cycles) :
    c.calls.length = 5 ∧ c.inc = 5 := by
  obtain ⟨j, rfl⟩ :=
    loop_cycles_mem env stopAt "lambda_throttle" maxr fuel i cnt c hc
  constructor
  · rw [runCycle_calls]; simp
  · rw [runCycle_inc]; simp

/-- Witness for C4 at a concrete one-cycle run. -/
theorem c4_witness :
    (runCycle env0 "lambda_throttle" 0).calls.length = 5 ∧
      (runCycle env0 "lambda_throttle" 0).inc = 5 :=
  c4_burst_always_five env0 (fun _ => false) none 1 0 0
    (runCycle env0 "lambda_throttle" 0)
    (by simp [send_continuous_loop, pyMaxReached])

/-- C5: the single-request sender never raises to its caller: for every
target config, request shape and transport outcome it returns `.ok`; when
the outbound call raises, the exception is swallowed and logged; and the
runner's per-cycle count increment does not depend on the outcomes at
all. -/
theorem c5_never_raises (config : Config) (rt : RequestType) (now : Nat)
    (outcome : Except String Unit) :
    (∃ r, send_single_request config rt now outcome = Except.ok r) ∧
    (∀ e, outcome = Except.error e →
      send_single_request config rt now outcome =
        Except.ok ([buildCall config rt now], ["Request failed: " ++ e])) ∧
    (∀ (env : Env) (o : Nat → Nat → Except String Unit) (key : String)
        (i : Nat),
      (runCycle ⟨env.configAt, env.timeAt, o⟩ key i).inc =
        (runCycle env key i).inc) := by
  refine ⟨?_, ?_, ?_⟩
  · cases outcome <;> exact ⟨_, rfl⟩
  · intro e he; subst he; rfl
  · intro env o key i; rw [runCycle_inc, runCycle_inc]

/-- Witness for C5 at a concrete failing outcome. -/
theorem c5_witness :
    send_single_request cfg0 RequestType.get_items 0
        (Except.error "timeout") =
      Except.ok ([buildCall cfg0 RequestType.get_items 0],
        ["Request failed: " ++ "timeout"]) :=
  (c5_never_raises cfg0 RequestType.get_items 0
      (Except.error "timeout")).2.1 "timeout" rfl

/-- C6: for every target config the sender performs exactly one HTTP call
with a 5-second timeout matching the request shape: `get_items` → GET
sample_api/items, `get_by_id` → GET sample_api/items/test-id-1 (the fixed
test id), `post_items` → POST sample_api/items with a JSON body carrying
the label "Error Trigger" and the current timestamp. -/
theorem c6_request_shapes (config : Config) (now : Nat)
    (outcome : Except String Unit) :
    sentCalls (send_single_request config RequestType.get_items now
        outcome) =
      [⟨Method.GET, config.sample_api ++ "/items", none, 5⟩] ∧
    sentCalls (send_single_request config RequestType.get_by_id now
        outcome) =
      [⟨Method.GET, config.sample_api ++ "/items/test-id-1", none, 5⟩] ∧
    sentCalls (send_single_request config RequestType.post_items now
        outcome) =
      [⟨Method.POST, config.sample_api ++ "/items",
        some ⟨"Error Trigger", "Request at " ++ toString now⟩, 5⟩] := by
  cases outcome <;> exact ⟨rfl, rfl, rfl⟩

/-- C7: the target configuration is re-read fresh at the start of every
cycle: the `k`-th executed cycle of a runner is exactly the cycle function
evaluated against `load_config()`'s cycle-`k` result, and every call it
makes builds its URL from that cycle's config - so a config change between
two cycles shows up in the very next cycle's outbound request. -/
theorem c7_fresh_config (env : Env) (stopAt : Nat → Bool) (key : String)
    (maxr : Option Nat) (fuel i cnt k : Nat) (c : CycleRec)
    (hc : (send_continuous_loop env stopAt key maxr fuel i
        cnt).cycles.get? k = some c) :
    c = runCycle env key (i + k) ∧
    ∀ call ∈ c.calls,
      call.url = (env.configAt (i + k)).sample_api ++
        apiPath (resolveRequestType SCENARIOS key) := by
  have h := loop_cycles_getq env stopAt key maxr fuel i cnt k c hc
  subst h
  refine ⟨rfl, ?_⟩
  intro call hcall
  rw [runCycle_calls] at hcall
  have hcal := List.eq_of_mem_replicate hcall
  subst hcal
  exact buildCall_url _ _ _

/-- Witness for C7 at a concrete one-cycle run. -/
theorem c7_witness :
    runCycle env0 "latency" 0 = runCycle env0 "latency" (0 + 0) ∧
    ∀ call ∈ (runCycle env0 "latency" 0).calls,
      call.url = (env0.configAt (0 + 0)).sample_api ++
        apiPath (resolveRequestType SCENARIOS "latency") :=
  c7_fresh_config env0 (fun _ => false) "latency" none 1 0 0 0
    (runCycle env0 "latency" 0) (by simp [send_continuous_loop, pyMaxReached])

/-- C8: `recover_all` returns an outcome entry for every known scenario key
in table order, each outcome being "recovered", "failed" or an
"error: message" string, whatever the registry state (including the empty
registry of a process where no scenario was ever started) and whatever the
external recovery API does; its totality reflects the per-key try/except of
lines 303-312, so no engine-side exception escapes. -/
theorem c8_recover_all (reg : List (String × EventSig))
    (resp : String → Except String Nat) :
    ((recover_all reg resp).2.map Prod.fst = SCENARIOS.map Prod.fst) ∧
    ∀ kv ∈ (recover_all reg resp).2,
      kv.2 = "recovered" ∨ kv.2 = "failed" ∨
        ∃ e, kv.2 = "error: " ++ e := by
  constructor
  · rw [recover_all, recover_all_go_snd]
    simp
  · intro kv hkv
    rw [recover_all, recover_all_go_snd] at hkv
    simp only [List.nil_append, List.mem_map] at hkv
    obtain ⟨p, _, rfl⟩ := hkv
    cases hr : resp p.1 with
    | ok code =>
      by_cases h200 : code = 200
      · exact Or.inl (by simp [recover_one, hr, h200])
      · exact Or.inr (Or.inl (by simp [recover_one, hr, h200]))
    | error e => exact Or.inr (Or.inr ⟨e, by simp [recover_one, hr]⟩)

/-- Witness for C8 on the empty registry. -/
theorem c8_witness :
    ((recover_all [] fun _ => Except.ok 200).2.map Prod.fst =
      SCENARIOS.map Prod.fst) ∧
    (("s3_access", "recovered").2 = "recovered" ∨
      ("s3_access", "recovered").2 = "failed" ∨
      ∃ e, ("s3_access", "recovered").2 = "error: " ++ e) :=
  ⟨(c8_recover_all [] fun _ => Except.ok 200).1,
   (c8_recover_all [] fun _ => Except.ok 200).2 ("s3_access", "recovered")
     (by decide)⟩

/-- C9: a scenario key missing from the table, or present without a
`request_type` entry, resolves to the `post_items` fallback; the runner
loop then keeps working normally, every cycle dispatching nonempty POST
traffic (timeout 5, with a JSON body) and counting at least one request,
one cycle per period when never cancelled. -/
theorem c9_unknown_key_defaults (key : String)
    (h : SCENARIOS.lookup key = none ∨
      ∃ sc, SCENARIOS.lookup key = some sc ∧ sc.request_type = none) :
    resolveRequestType SCENARIOS key = RequestType.post_items ∧
    (∀ (env : Env) (stopAt : Nat → Bool) (fuel i cnt : Nat) (c : CycleRec),
      c ∈ (send_continuous_loop env stopAt key none fuel i cnt).cycles →
        c.calls ≠ [] ∧ 1 ≤ c.inc ∧
        ∀ call ∈ c.calls, call.method = Method.POST ∧
          call.timeout = 5 ∧ call.body.isSome = true) ∧
    (∀ (env : Env) (fuel i cnt : Nat),
      (send_continuous_loop env (fun _ => false) key none fuel i
          cnt).cycles.length = fuel) := by
  have hrt : resolveRequestType SCENARIOS key = RequestType.post_items := by
    rcases h with h | ⟨sc, hsc, hnone⟩
    · simp [resolveRequestType, h]
    · simp [resolveRequestType, hsc, hnone]
  refine ⟨hrt, ?_, fun env fuel i cnt => loop_length_full env key fuel i cnt⟩
  intro env stopAt fuel i cnt c hc
  obtain ⟨j, rfl⟩ := loop_cycles_mem env stopAt key none fuel i cnt c hc
  refine ⟨?_, ?_, ?_⟩
  · rw [runCycle_calls]
    by_cases hk : key = "lambda_throttle" <;> simp [hk]
  · rw [runCycle_inc]
    by_cases hk : key = "lambda_throttle" <;> simp [hk]
  · intro call hcall
    rw [runCycle_calls, hrt] at hcall
    have hcal := List.eq_of_mem_replicate hcall
    subst hcal
    exact ⟨rfl, rfl, rfl⟩

/-- Witness for C9 at a key absent from the scenario table. -/
theorem c9_witness :
    resolveRequestType SCENARIOS "no_such_scenario" =
      RequestType.post_items ∧
    (send_continuous_loop env0 (fun _ => false) "no_such_scenario" none 3 0
        0).cycles.length = 3 :=
  ⟨(c9_unknown_key_defaults "no_such_scenario" (Or.inl (by decide))).1,
   (c9_unknown_key_defaults "no_such_scenario"
      (Or.inl (by decide))).2.2 env0 3 0 0⟩

/-- C10: invoking the runner loop for a key with no stop event registered
(lines 85-87) returns immediately: no cycle runs, no request is issued, the
count stays 0 and the registry is returned unchanged. -/
theorem c10_unregistered_key (reg : List (String × EventSig)) (env : Env)
    (key : String) (maxr : Option Nat) (fuel : Nat)
    (h : reg.lookup key = none) :
    send_continuous_requests reg env key maxr fuel =
      (⟨[], 0, true⟩, reg) := by
  simp [send_continuous_requests, h]

/-- Witness for C10 on the empty registry. -/
theorem c10_witness :
    send_continuous_requests [] env0 "s3_access" none 5 =
      (⟨[], 0, true⟩, []) :=
  c10_unregistered_key [] env0 "s3_access" none 5 rfl

theorem exitTime_here (s : Nat) (ws : List Nat) (t : Nat) (h : s ≤ t) :
    exitTime s ws t = some t := by
  cases ws <;> simp [exitTime, h]

theorem issuedTimes_lt (s : Nat) :
    ∀ (ws : List Nat) (t : Nat), ∀ x ∈ issuedTimes s ws t, x < s := by
  intro ws
  induction ws with
  | nil => intro t x hx; simp [issuedTimes] at hx
  | cons w rest ih =>
    intro t x hx
    by_cases hst : s ≤ t
    · simp [issuedTimes, hst] at hx
    · simp only [issuedTimes, if_neg hst, List.mem_cons] at hx
      rcases hx with rfl | hx
      · omega
      · exact ih (t + w + 2) x hx

/-- C1 counterexample: the claim says a runner with maxRequests = 0 stops
immediately without issuing any request.  On line 92 `max_requests and ...`
is false for `max_requests = 0` (Python truthiness), so the budget check is
skipped: after 2 modeled cycles the runner with budget 0 has issued 2
requests and is still running. -/
theorem c1_counterexample :
    (send_continuous_loop env0 (fun _ => false) "s3_access" (some 0) 2 0
        0).count = 2 ∧
    (send_continuous_loop env0 (fun _ => false) "s3_access" (some 0) 2 0
        0).stopped = false :=
  ⟨rfl, rfl⟩

/-- C1 amended: for maxRequests = N with N ≥ 1 (so N ∈ \x7b1, 30\x7d) the
runner self-stops once its count reaches N: a single-request scenario
issues at most N counted requests, the 5-unit burst scenario at most N + 4
(the bound is crossed inside one batch), and the loop reaches `Stopped`
within N cycles; maxRequests = 0, however, is treated by line 92 exactly
like "no limit": the loop with budget 0 is the unbounded loop. -/
theorem c1_amended_max_requests (env : Env) (stopAt : Nat → Bool)
    (key : String) (m fuel : Nat) (hm : 1 ≤ m) :
    (key ≠ "lambda_throttle" →
      (send_continuous_loop env stopAt key (some m) fuel 0 0).count ≤ m) ∧
    (send_continuous_loop env stopAt "lambda_throttle" (some m) fuel 0
        0).count ≤ m + 4 ∧
    (m < fuel →
      (send_continuous_loop env stopAt key (some m) fuel 0 0).stopped
        = true) ∧
    (send_continuous_loop env stopAt key (some 0) fuel 0 0 =
      send_continuous_loop env stopAt key none fuel 0 0) := by
  refine ⟨?_, ?_, ?_, loop_zero_eq env stopAt key fuel 0 0⟩
  · intro hk
    have h := loop_count_le env stopAt key m 1 (by omega)
      (by simp [hk]) fuel 0 0 (by omega)
    have e1 : m + 1 - 1 = m := by omega
    rwa [e1] at h
  · have h := loop_count_le env stopAt "lambda_throttle" m 5 (by omega)
      (by simp) fuel 0 0 (by omega)
    have e5 : m + 5 - 1 = m + 4 := by omega
    rwa [e5] at h
  · intro hf
    exact loop_stops env stopAt key m (by omega) fuel 0 0 (by omega)

/-- Witness for C1 (amended) at maxRequests = 1 on a single-request
scenario. -/
theorem c1_witness :
    (send_continuous_loop env0 (fun _ => false) "s3_access" (some 1) 3 0
        0).count ≤ 1 ∧
    (send_continuous_loop env0 (fun _ => false) "s3_access" (some 1) 3 0
        0).stopped = true :=
  ⟨(c1_amended_max_requests env0 (fun _ => false) "s3_access" 1 3
      (by decide)).1 (by decide),
   (c1_amended_max_requests env0 (fun _ => false) "s3_access" 1 3
      (by decide)).2.2.1 (by decide)⟩

/-- C2 counterexample: the claim says a second `start` never leaves two
live runners.  Take an old runner whose current cycle's in-flight request
takes 5 s (admissible: the per-call timeout of lines 69-74 is 5 s), so its
next cancellation check is at 0 + 5 + 2 = 7 s, and call `start` again at
T = 1 s: the `join(timeout=3)` of line 133 gives up at 1 + 3 = 4 s and the
new runner is launched then, while the old runner only exits at 7 s - both
runners are live during [4 s, 7 s). -/
theorem c2_counterexample :
    start_requests_second [5] 1 = some (4, 7) ∧ (4 : Nat) < 7 := by
  exact ⟨rfl, by omega⟩

/-- C2 amended: a second `start` signals the old runner's cancellation and
waits at most 3 s for it; the new runner never launches after the old
runner's exit, and whenever the old runner observes the cancellation within
the 3 s grace period the new runner launches exactly at the old runner's
exit, so exactly one runner is live at any instant; the old runner issues
no request after the cancellation is signalled, so past its exit exactly
one live runner remains in every case. -/
theorem c2_amended_second_start (ws : List Nat) (T S E : Nat)
    (h : start_requests_second ws T = some (S, E)) :
    S ≤ E ∧ (E ≤ T + 3 → S = E) ∧ ∀ x ∈ issuedTimes T ws 0, x < T := by
  unfold start_requests_second at h
  cases hE : exitTime T ws 0 with
  | none => rw [hE] at h; simp at h
  | some E' =>
    rw [hE] at h
    simp only [Option.map_some'] at h
    have hS : min (T + 3) E' = S := congrArg Prod.fst (Option.some.inj h)
    have hEE : E' = E := congrArg Prod.snd (Option.some.inj h)
    subst hEE
    refine ⟨?_, ?_, issuedTimes_lt T ws 0⟩
    · rw [← hS]; exact min_le_right _ _
    · intro hle
      rw [← hS]
      exact min_eq_right hle

/-- Witness for C2 (amended): a second start at T = 1 s over an idle old
runner (no in-flight work) joins successfully and hands over with no
overlap. -/
theorem c2_witness :
    (2 : Nat) ≤ 2 ∧ ((2 : Nat) ≤ 1 + 3 → (2 : Nat) = 2) ∧
      ∀ x ∈ issuedTimes 1 [0] 0, x < 1 :=
  c2_amended_second_start [0] 1 2 2 (by decide)

/-- C3 counterexample: the claim says a runner whose cancellation is
signalled mid-sleep wakes immediately.  Line 117 is `time.sleep(2)`, a
plain sleep the stop event cannot interrupt: a runner sleeping over (0, 2]
whose event is set at time 1 exits at time 2, not at time 1. -/
theorem c3_counterexample :
    exitTime 1 [0] 0 = some 2 ∧ exitTime 1 [0] 0 ≠ some 1 := by
  decide

/-- C3 amended: a cancellation signalled during a cycle's sleep does not
wake the runner early - it finishes the full 2 s sleep - but the runner
then observes the signal at its next top-of-loop check, reaching `Stopped`
strictly within one 2 s cycle period of the signal, and it issues no
further request or request batch after the signal is set. -/
theorem c3_amended_stop_during_sleep (t w s : Nat) (ws : List Nat)
    (h1 : t + w < s) (h2 : s ≤ t + w + 2) :
    exitTime s (w :: ws) t = some (t + w + 2) ∧
    t + w + 2 < s + 2 ∧
    ∀ x ∈ issuedTimes s (w :: ws) t, x < s := by
  have hts : ¬ s ≤ t := by omega
  refine ⟨?_, by omega, issuedTimes_lt s (w :: ws) t⟩
  simp only [exitTime, if_neg hts]
  exact exitTime_here s ws (t + w + 2) h2

/-- Witness for C3 (amended): signal at time 2 during the sleep of a cycle
that worked for 1 s from time 0. -/
theorem c3_witness :
    exitTime 2 [1] 0 = some (0 + 1 + 2) ∧ 0 + 1 + 2 < 2 + 2 ∧
      ∀ x ∈ issuedTimes 2 [1] 0, x < 2 :=
  c3_amended_stop_during_sleep 0 1 2 [] (by decide) (by decide)
